import Mathlib

/-!
Verification development for the healthcare MCP client's tool-routing core:
`MultiAgentFactory.routeQuery` (src/services/multiAgent.js) and
`MCPClient.callTool` (src/services/mcpClient.js), shallowly embedded in Lean.

JavaScript values flowing through these functions are modelled by the `JVal`
type below. JSON numbers are modelled as integers (no claim under scrutiny
involves fractional values), and a key holding the JS value `undefined` is
modelled as an absent key.
-/

/-- Model of a JSON/JavaScript value as handled by the client code. -/
inductive JVal where
  | str : String → JVal
  | num : Int → JVal
  | bool : Bool → JVal
  | null : JVal
  | arr : List JVal → JVal
  | obj : List (String × JVal) → JVal

/-- Property access `v.k` on a JS value: `some` when `v` is an object with the
key, `none` for a missing key or a non-object receiver (JS `undefined`). -/
def getField : JVal → String → Option JVal
  | JVal.obj fields, k => (fields.find? (fun p => p.1 == k)).map (fun p => p.2)
  | _, _ => none

/-- JavaScript truthiness of a value (`NaN` and `-0` are not representable in
this model; no code path under study produces them). -/
def truthy : JVal → Bool
  | JVal.str s => !(s == "")
  | JVal.num n => !(n == 0)
  | JVal.bool b => b
  | JVal.null => false
  | JVal.arr _ => true
  | JVal.obj _ => true

/-- Truthiness of an optional field (JS `undefined` is falsy). -/
def truthyOpt : Option JVal → Bool
  | some v => truthy v
  | none => false

/-- JavaScript `typeof v === 'object'` (true for objects, arrays and null). -/
def isObjType : JVal → Bool
  | JVal.obj _ => true
  | JVal.arr _ => true
  | JVal.null => true
  | _ => false

/-! JSON.parse, modelled as an executable recursive-descent parser. Restriction
of the model: numeric literals are integers only (a fraction or exponent makes
the parse fail), and string escapes cover the common single-character escapes
but not \u sequences. None of the claims exercises these corners. -/

/-- Skip JSON whitespace. -/
def skipWs : List Char → List Char
  | [] => []
  | c :: cs => if c = ' ' || c = '\n' || c = '\t' || c = '\r' then skipWs cs else c :: cs

/-- Decode a single-character string escape. -/
def unescapeChar (c : Char) : Option Char :=
  if c = '"' then some '"'
  else if c = '\\' then some '\\'
  else if c = '/' then some '/'
  else if c = 'n' then some '\n'
  else if c = 't' then some '\t'
  else if c = 'r' then some '\r'
  else if c = 'b' then some (Char.ofNat 8)
  else if c = 'f' then some (Char.ofNat 12)
  else none

/-- Parse the body of a JSON string after the opening quote. -/
def parseStringBody : List Char → Option (String × List Char)
  | [] => none
  | '"' :: rest => some ("", rest)
  | '\\' :: c :: rest =>
      match unescapeChar c with
      | some u => (parseStringBody rest).map (fun p => (String.singleton u ++ p.1, p.2))
      | none => none
  | c :: rest => (parseStringBody rest).map (fun p => (String.singleton c ++ p.1, p.2))

/-- Parse an integer JSON numeral. -/
def parseNumber (cs : List Char) : Option (JVal × List Char) :=
  let (neg, cs2) := match cs with
    | '-' :: r => (true, r)
    | _ => (false, cs)
  let ds := cs2.takeWhile Char.isDigit
  let rest := cs2.dropWhile Char.isDigit
  if ds.isEmpty then none
  else
    match rest with
    | '.' :: _ => none
    | 'e' :: _ => none
    | 'E' :: _ => none
    | _ =>
      let n : Int := Int.ofNat (ds.foldl (fun a c => a * 10 + (c.toNat - 48)) 0)
      some (JVal.num (if neg then -n else n), rest)

mutual
/-- Parse one JSON value (fuelled recursion). -/
def parseVal : Nat → List Char → Option (JVal × List Char)
  | 0, _ => none
  | Nat.succ fuel, cs =>
    match skipWs cs with
    | 'n' :: 'u' :: 'l' :: 'l' :: rest => some (JVal.null, rest)
    | 't' :: 'r' :: 'u' :: 'e' :: rest => some (JVal.bool true, rest)
    | 'f' :: 'a' :: 'l' :: 's' :: 'e' :: rest => some (JVal.bool false, rest)
    | '"' :: rest => (parseStringBody rest).map (fun p => (JVal.str p.1, p.2))
    | '[' :: rest =>
        (match skipWs rest with
         | ']' :: rest2 => some (JVal.arr [], rest2)
         | _ => (parseItems fuel rest).map (fun p => (JVal.arr p.1, p.2)))
    | '{' :: rest =>
        (match skipWs rest with
         | '}' :: rest2 => some (JVal.obj [], rest2)
         | _ => (parseMembers fuel rest).map (fun p => (JVal.obj p.1, p.2)))
    | other => parseNumber other

/-- Parse the comma-separated items of a non-empty JSON array. -/
def parseItems : Nat → List Char → Option (List JVal × List Char)
  | 0, _ => none
  | Nat.succ fuel, cs =>
    match parseVal fuel cs with
    | none => none
    | some (v, rest) =>
      match skipWs rest with
      | ',' :: rest2 => (parseItems fuel rest2).map (fun p => (v :: p.1, p.2))
      | ']' :: rest2 => some ([v], rest2)
      | _ => none

/-- Parse the members of a non-empty JSON object. -/
def parseMembers : Nat → List Char → Option (List (String × JVal) × List Char)
  | 0, _ => none
  | Nat.succ fuel, cs =>
    match skipWs cs with
    | '"' :: rest =>
      match parseStringBody rest with
      | none => none
      | some (k, rest2) =>
        match skipWs rest2 with
        | ':' :: rest3 =>
          match parseVal fuel rest3 with
          | none => none
          | some (v, rest4) =>
            match skipWs rest4 with
            | ',' :: rest5 => (parseMembers fuel rest5).map (fun p => ((k, v) :: p.1, p.2))
            | '}' :: rest5 => some ([(k, v)], rest5)
            | _ => none
        | _ => none
    | _ => none
end

/-- Model of the JavaScript builtin `JSON.parse`, returning `none` where the
builtin throws a SyntaxError. -/
def jsonParse (s : String) : Option JVal :=
  match parseVal (2 * s.length + 2) s.toList with
  | some (v, rest) => if (skipWs rest).isEmpty then some v else none
  | none => none

/-- Escape one character for JSON string output. -/
def escapeChar (c : Char) : String :=
  if c = '"' then "\\\""
  else if c = '\\' then "\\\\"
  else if c = '\n' then "\\n"
  else if c = '\t' then "\\t"
  else if c = '\r' then "\\r"
  else String.singleton c

/-- Escape a string for JSON output. -/
def escapeString (s : String) : String := String.join (s.toList.map escapeChar)

mutual
/-- Model of the JavaScript builtin `JSON.stringify` on `JVal` (default
formatting: no extra whitespace). -/
def jsonStringify : JVal → String
  | JVal.str s => "\"" ++ escapeString s ++ "\""
  | JVal.num n => toString n
  | JVal.bool b => if b then "true" else "false"
  | JVal.null => "null"
  | JVal.arr xs => "[" ++ stringifyItems xs ++ "]"
  | JVal.obj fs => "\x7b" ++ stringifyMembers fs ++ "\x7d"

/-- Comma-joined serialization of array items. -/
def stringifyItems : List JVal → String
  | [] => ""
  | [x] => jsonStringify x
  | x :: y :: xs => jsonStringify x ++ "," ++ stringifyItems (y :: xs)

/-- Comma-joined serialization of object members. -/
def stringifyMembers : List (String × JVal) → String
  | [] => ""
  | [(k, v)] => "\"" ++ escapeString k ++ "\":" ++ jsonStringify v
  | (k, v) :: m :: fs =>
      "\"" ++ escapeString k ++ "\":" ++ jsonStringify v ++ "," ++ stringifyMembers (m :: fs)
end

/-- The error object built by `MCPClient.callTool` when the gateway returned a
string that is not valid JSON (mcpClient.js lines 52-56). -/
def invalidFormatObj (s : String) : JVal :=
  JVal.obj [("status", JVal.str "error"),
            ("error_message", JVal.str "Invalid response format from server"),
            ("raw_response", JVal.str s)]

/-- Embedding of the response-unwrapping logic inlined in `MCPClient.callTool`
(mcpClient.js lines 43-79): string responses are JSON-parsed (falling back to
an error object), object responses are unwrapped from `result` / `data` /
`response` envelopes or passed through. -/
def normalizeResponse (data : JVal) : JVal :=
  match data with
  | JVal.str s =>
      match jsonParse s with
      | some parsed => parsed
      | none => invalidFormatObj s
  | _ =>
      if truthy data && isObjType data then
        if truthyOpt (getField data "result") then (getField data "result").getD JVal.null
        else if truthyOpt (getField data "data") then (getField data "data").getD JVal.null
        else if truthyOpt (getField data "status") || truthyOpt (getField data "trials")
             || truthyOpt (getField data "results") then data
        else
          match getField data "response" with
          | some r => if truthy r && isObjType r then r else data
          | none => data
      else data

/-! Transport model for the axios POST issued by `MCPClient.callTool`
(mcpClient.js lines 32-36 and 80-104). An outcome is either a 2xx response
with a body, or one of the three failure shapes distinguished by the catch
block: a server error response (`error.response`), no response at all
(`error.request`), or a request-setup error (`error.message`). -/
inductive AxiosOutcome where
  | success (data : JVal)
  | httpError (status : Nat) (data : Option JVal)
  | noResponse
  | setupError (message : String)

/-- An outcome that makes the axios promise reject (`error.response`,
`error.request`, or a setup error). -/
def AxiosOutcome.isFailure : AxiosOutcome → Bool
  | AxiosOutcome.success _ => false
  | _ => true

/-- A field value picked only when present and truthy, modelling one link of
the JS fallback chain `a?.k || ...` in the catch block. -/
def truthyPick (data : Option JVal) (k : String) : Option JVal :=
  match data with
  | some d =>
    match getField d k with
    | some v => if truthy v then some v else none
    | none => none
  | none => none

/-- The `errorMessage` value computed by the catch block of
`MCPClient.callTool` (mcpClient.js lines 84-97). The fallback chain uses JS
truthiness; a truthy non-string field value is propagated as-is. -/
def axiosErrorMessage : AxiosOutcome → JVal
  | AxiosOutcome.httpError status data =>
      ((truthyPick data "error_message").orElse (fun _ =>
        (truthyPick data "error").orElse (fun _ =>
          truthyPick data "message"))).getD
        (JVal.str ("Server error: " ++ toString status))
  | AxiosOutcome.noResponse =>
      JVal.str "No response from server. Please check if the MCP server is running."
  | AxiosOutcome.setupError msg => JVal.str msg
  | AxiosOutcome.success _ => JVal.null

/-- The flat error object returned by the catch block of `MCPClient.callTool`
(mcpClient.js lines 99-103). The `details` key holds `error.response?.data`;
when that is JS `undefined` (no response body, or a non-response failure) the
key is modelled as absent. -/
def callToolFailure (e : AxiosOutcome) : JVal :=
  JVal.obj (("status", JVal.str "error") :: ("error_message", axiosErrorMessage e) ::
    (match e with
     | AxiosOutcome.httpError _ (some d) => [("details", d)]
     | _ => []))

/-- Embedding of `MCPClient.callTool` (mcpClient.js lines 28-105), with the
transport abstracted as a `gateway` oracle from (tool name, arguments) to an
axios outcome. The session id attached to the request body is opaque transport
detail not modelled here. The function is total: a transport failure is
converted to a flat error object, never rethrown. -/
def callTool (gateway : String → JVal → AxiosOutcome) (toolName : String) (args : JVal) : JVal :=
  match gateway toolName args with
  | AxiosOutcome.success data => normalizeResponse data
  | e => callToolFailure e

/-- One tool schema as passed to the completion API (multiAgent.js lines
152-312); `parameters` is the JSON-schema object, kept as a `JVal`. -/
structure ToolSchema where
  name : String
  description : String
  parameters : JVal

/-- An agent definition (multiAgent.js lines 11-61). -/
structure Agent where
  id : String
  name : String
  role : String
  systemPrompt : String
  tools : List String

/-- The `fda_agent` entry of the registry. -/
def fdaAgent : Agent :=
  { id := "fda_agent",
    name := "FDA Drug Information Agent",
    role := "FDA drug specialist",
    systemPrompt := "You are an FDA drug information specialist. Use the fda_drug_lookup tool to search for drug information, adverse events, and labels. Always provide accurate, detailed information from FDA databases.",
    tools := ["fda_drug_lookup"] }

/-- The `clinical_research_agent` entry of the registry. -/
def clinicalResearchAgent : Agent :=
  { id := "clinical_research_agent",
    name := "Clinical Trials Research Agent",
    role := "Clinical trials researcher",
    systemPrompt := "You are a clinical trials research specialist. Use the clinical_trials_search tool to find relevant clinical trials. Provide comprehensive information about ongoing and completed trials.",
    tools := ["clinical_trials_search"] }

/-- The `interaction_checker_agent` entry of the registry. -/
def interactionCheckerAgent : Agent :=
  { id := "interaction_checker_agent",
    name := "Drug Interaction Specialist",
    role := "Drug interaction expert",
    systemPrompt := "You are a drug interaction specialist. Use the fda_drug_lookup and pubmed_search tools to check for drug interactions and contraindications. Always prioritize patient safety.",
    tools := ["fda_drug_lookup", "pubmed_search"] }

/-- The `medical_literature_agent` entry of the registry. -/
def medicalLiteratureAgent : Agent :=
  { id := "medical_literature_agent",
    name := "Medical Literature Researcher",
    role := "Medical literature expert",
    systemPrompt := "You are a medical literature research specialist. Use the pubmed_search tool to find relevant medical research papers and studies. Provide evidence-based information from peer-reviewed sources.",
    tools := ["pubmed_search"] }

/-- The `health_education_agent` entry of the registry. -/
def healthEducationAgent : Agent :=
  { id := "health_education_agent",
    name := "Health Education Specialist",
    role := "Health education expert",
    systemPrompt := "You are a health education specialist. Use the health_topics tool to provide evidence-based health information in easy-to-understand language. Support multiple languages when requested.",
    tools := ["health_topics"] }

/-- The `medical_coding_agent` entry of the registry. -/
def medicalCodingAgent : Agent :=
  { id := "medical_coding_agent",
    name := "Medical Coding Specialist",
    role := "Medical coding expert",
    systemPrompt := "You are a medical coding specialist. Use the lookup_icd_code and medical_terminology_search tools to help with medical coding, terminology, and classification. Provide accurate ICD-10 codes and medical definitions.",
    tools := ["lookup_icd_code", "medical_terminology_search"] }

/-- The `general_assistant` entry of the registry. -/
def generalAssistant : Agent :=
  { id := "general_assistant",
    name := "General Healthcare Assistant",
    role := "General healthcare AI",
    systemPrompt := "You are a helpful healthcare AI assistant. You can use any of the available MCP tools to help answer healthcare questions. Always provide accurate, evidence-based information.",
    tools := ["fda_drug_lookup", "pubmed_search", "health_topics", "clinical_trials_search", "lookup_icd_code", "medical_terminology_search", "ai_clinical_search", "interaction_checker"] }

/-- The agent registry `this.agents` (multiAgent.js lines 11-61). -/
def agents : List Agent :=
  [fdaAgent, clinicalResearchAgent, interactionCheckerAgent, medicalLiteratureAgent,
   healthEducationAgent, medicalCodingAgent, generalAssistant]

/-- The `fda_drug_lookup` schema (multiAgent.js lines 154-172). -/
def fdaDrugLookupSchema : ToolSchema :=
  { name := "fda_drug_lookup",
    description := "Look up drug information from the FDA database",
    parameters := JVal.obj
      [("type", JVal.str "object"),
       ("properties", JVal.obj
         [("drug_name", JVal.obj
            [("type", JVal.str "string"),
             ("description", JVal.str "Name of the drug to search for")]),
          ("search_type", JVal.obj
            [("type", JVal.str "string"),
             ("enum", JVal.arr [JVal.str "general", JVal.str "label", JVal.str "adverse_events"]),
             ("description", JVal.str "Type of information to retrieve")])]),
       ("required", JVal.arr [JVal.str "drug_name"])] }

/-- The `pubmed_search` schema (multiAgent.js lines 173-195). -/
def pubmedSearchSchema : ToolSchema :=
  { name := "pubmed_search",
    description := "Search for medical literature in PubMed database",
    parameters := JVal.obj
      [("type", JVal.str "object"),
       ("properties", JVal.obj
         [("query", JVal.obj
            [("type", JVal.str "string"),
             ("description", JVal.str "Search query for medical literature")]),
          ("max_results", JVal.obj
            [("type", JVal.str "integer"),
             ("description", JVal.str "Maximum number of results to return"),
             ("default", JVal.num 5)]),
          ("date_range", JVal.obj
            [("type", JVal.str "string"),
             ("description", JVal.str "Limit to articles published within years (e.g. \"5\" for last 5 years)")])]),
       ("required", JVal.arr [JVal.str "query"])] }

/-- The `clinical_trials_search` schema (multiAgent.js lines 196-220). -/
def clinicalTrialsSearchSchema : ToolSchema :=
  { name := "clinical_trials_search",
    description := "Search for clinical trials by condition",
    parameters := JVal.obj
      [("type", JVal.str "object"),
       ("properties", JVal.obj
         [("condition", JVal.obj
            [("type", JVal.str "string"),
             ("description", JVal.str "Medical condition or disease to search for")]),
          ("status", JVal.obj
            [("type", JVal.str "string"),
             ("enum", JVal.arr [JVal.str "recruiting", JVal.str "completed", JVal.str "active", JVal.str "not_recruiting", JVal.str "all"]),
             ("description", JVal.str "Trial status"),
             ("default", JVal.str "recruiting")]),
          ("max_results", JVal.obj
            [("type", JVal.str "integer"),
             ("description", JVal.str "Maximum number of results to return"),
             ("default", JVal.num 10)])]),
       ("required", JVal.arr [JVal.str "condition"])] }

/-- The `health_topics` schema (multiAgent.js lines 221-240). -/
def healthTopicsSchema : ToolSchema :=
  { name := "health_topics",
    description := "Get evidence-based health information on various topics",
    parameters := JVal.obj
      [("type", JVal.str "object"),
       ("properties", JVal.obj
         [("topic", JVal.obj
            [("type", JVal.str "string"),
             ("description", JVal.str "Health topic to search for information")]),
          ("language", JVal.obj
            [("type", JVal.str "string"),
             ("enum", JVal.arr [JVal.str "en", JVal.str "es"]),
             ("description", JVal.str "Language for content"),
             ("default", JVal.str "en")])]),
       ("required", JVal.arr [JVal.str "topic"])] }

/-- The `lookup_icd_code` schema (multiAgent.js lines 241-262); it has no
required parameters and hence no `required` key. -/
def lookupIcdCodeSchema : ToolSchema :=
  { name := "lookup_icd_code",
    description := "Look up ICD-10 codes by code or description",
    parameters := JVal.obj
      [("type", JVal.str "object"),
       ("properties", JVal.obj
         [("code", JVal.obj
            [("type", JVal.str "string"),
             ("description", JVal.str "ICD-10 code to look up")]),
          ("description", JVal.obj
            [("type", JVal.str "string"),
             ("description", JVal.str "Medical condition description to search for")]),
          ("max_results", JVal.obj
            [("type", JVal.str "integer"),
             ("description", JVal.str "Maximum number of results to return"),
             ("default", JVal.num 10)])])] }

/-- The `medical_terminology_search` schema (multiAgent.js lines 263-276). -/
def medicalTerminologySearchSchema : ToolSchema :=
  { name := "medical_terminology_search",
    description := "Search for medical terminology definitions",
    parameters := JVal.obj
      [("type", JVal.str "object"),
       ("properties", JVal.obj
         [("term", JVal.obj
            [("type", JVal.str "string"),
             ("description", JVal.str "Medical term to search for")])]),
       ("required", JVal.arr [JVal.str "term"])] }

/-- The `ai_clinical_search` schema (multiAgent.js lines 277-290). -/
def aiClinicalSearchSchema : ToolSchema :=
  { name := "ai_clinical_search",
    description := "AI-powered clinical search for complex medical queries",
    parameters := JVal.obj
      [("type", JVal.str "object"),
       ("properties", JVal.obj
         [("query", JVal.obj
            [("type", JVal.str "string"),
             ("description", JVal.str "Clinical query or question")])]),
       ("required", JVal.arr [JVal.str "query"])] }

/-- The `interaction_checker` schema (multiAgent.js lines 291-308). -/
def interactionCheckerSchema : ToolSchema :=
  { name := "interaction_checker",
    description := "Check for drug interactions between medications",
    parameters := JVal.obj
      [("type", JVal.str "object"),
       ("properties", JVal.obj
         [("drug1", JVal.obj
            [("type", JVal.str "string"),
             ("description", JVal.str "First drug name")]),
          ("drug2", JVal.obj
            [("type", JVal.str "string"),
             ("description", JVal.str "Second drug name")])]),
       ("required", JVal.arr [JVal.str "drug1", JVal.str "drug2"])] }

/-- The `allTools` table of `getToolFunctions` (multiAgent.js lines 153-309),
keyed by tool name. -/
def allTools : List (String × ToolSchema) :=
  [("fda_drug_lookup", fdaDrugLookupSchema),
   ("pubmed_search", pubmedSearchSchema),
   ("clinical_trials_search", clinicalTrialsSearchSchema),
   ("health_topics", healthTopicsSchema),
   ("lookup_icd_code", lookupIcdCodeSchema),
   ("medical_terminology_search", medicalTerminologySearchSchema),
   ("ai_clinical_search", aiClinicalSearchSchema),
   ("interaction_checker", interactionCheckerSchema)]

/-- Embedding of `getToolFunctions` (multiAgent.js line 311):
`toolNames.map(name => allTools[name]).filter(Boolean)`. -/
def getToolFunctions (toolNames : List String) : List ToolSchema :=
  toolNames.filterMap (fun n => (allTools.find? (fun p => p.1 == n)).map (fun p => p.2))

/-- A function-call request attached to an assistant message
(`message.function_call` in the completion response): the tool name and the
raw, still-unparsed JSON arguments string. -/
structure FunctionCall where
  name : String
  arguments : String

/-- One conversation message as built or consumed by `routeQuery`. A JS `null`
or absent `content` is modelled as `none`; the `name` field is set only on
role-"function" messages (the spec calls it `functionName`). -/
structure ChatMessage where
  role : String
  content : Option String := none
  function_call : Option FunctionCall := none
  name : Option String := none

/-- One request to the chat-completion endpoint, as assembled by `routeQuery`.
The model id and the constant temperature 0.7 carry no control flow and are
not modelled; `functions`/`function_call` are `none` when the corresponding
keys are not passed (the second call, multiAgent.js lines 113-126). -/
structure CompletionRequest where
  messages : List ChatMessage
  max_tokens : Nat
  functions : Option (List ToolSchema) := none
  function_call : Option String := none

/-- External-collaborator behavior: the completion endpoint either yields
`response.choices[0].message` (`Except.ok`) or throws (`Except.error` carries
`error.message`, covering network failures and malformed responses), and the
tool-gateway transport yields an `AxiosOutcome` per (tool name, arguments). -/
structure Env where
  complete : CompletionRequest → Except String ChatMessage
  gateway : String → JVal → AxiosOutcome

/-- One outgoing network call recorded while dispatching. -/
inductive NetCall where
  | completion (req : CompletionRequest)
  | toolGateway (name : String) (args : JVal)

/-- The result envelope returned by `routeQuery`; each field is `none` when
the corresponding key is absent from the returned JS object (or, for
`response`, when the final message content is null). -/
structure DispatchResult where
  response : Option String := none
  agent : Option String := none
  mcpToolsUsed : Option (List String) := none
  toolResults : Option JVal := none
  error : Option String := none

/-- The system-message content built by `routeQuery` (multiAgent.js line 84). -/
def systemContent (agent : Agent) : String :=
  agent.systemPrompt ++ "\n\nYou have access to these MCP tools: "
    ++ String.intercalate ", " agent.tools
    ++ ". Use them when needed to answer the user\x27s query accurately."

/-- The initial conversation (multiAgent.js lines 81-90). -/
def initialMessages (agent : Agent) (query : String) : List ChatMessage :=
  [{ role := "system", content := some (systemContent agent) },
   { role := "user", content := some query }]

/-- The first completion request (multiAgent.js lines 93-100): the initial
conversation, max_tokens 1000, the agent-filtered schemas, policy "auto". -/
def firstRequest (agent : Agent) (query : String) : CompletionRequest :=
  { messages := initialMessages agent query,
    max_tokens := 1000,
    functions := some (getToolFunctions agent.tools),
    function_call := some "auto" }

/-- The function-result message appended after a tool call (multiAgent.js
lines 118-122): role "function", the tool name, and the JSON-serialized tool
result as content. -/
def functionResultMessage (toolName : String) (toolResult : JVal) : ChatMessage :=
  { role := "function", name := some toolName, content := some (jsonStringify toolResult) }

/-- The second completion request (multiAgent.js lines 113-126): the initial
conversation plus the assistant function-call message and the function-result
message, max_tokens 1500, and no function schemas offered. -/
def secondRequest (agent : Agent) (query : String) (assistantMsg : ChatMessage)
    (toolName : String) (toolResult : JVal) : CompletionRequest :=
  { messages := initialMessages agent query
      ++ [assistantMsg, functionResultMessage toolName toolResult],
    max_tokens := 1500 }

/-- Model of the message of the SyntaxError thrown by
`JSON.parse(message.function_call.arguments)` (engine-specific text
abstracted); it becomes `error.message` in the catch block. -/
def jsonParseError (s : String) : String :=
  "Unexpected token: " ++ s ++ " is not valid JSON"

/-- Embedding of `MultiAgentFactory.routeQuery` (multiAgent.js lines 73-150),
instrumented with the ordered list of outgoing network calls. Each JS `await`
that can reject is an `Except` elimination whose error branch reproduces the
enclosing catch block `return \x7b error: error.message, agent: agent.name \x7d`;
the `JSON.parse` throw site is handled the same way. -/
def routeQuery (env : Env) (agentId : String) (query : String) :
    DispatchResult × List NetCall :=
  match agents.find? (fun a => a.id == agentId) with
  | none => ({ error := some "Agent not found" }, [])
  | some agent =>
    match env.complete (firstRequest agent query) with
    | Except.error e =>
        ({ error := some e, agent := some agent.name },
         [NetCall.completion (firstRequest agent query)])
    | Except.ok message =>
      match message.function_call with
      | some fc =>
        match jsonParse fc.arguments with
        | none =>
            ({ error := some (jsonParseError fc.arguments), agent := some agent.name },
             [NetCall.completion (firstRequest agent query)])
        | some toolArgs =>
            match env.complete (secondRequest agent query message fc.name
                (callTool env.gateway fc.name toolArgs)) with
            | Except.error e =>
                ({ error := some e, agent := some agent.name },
                 [NetCall.completion (firstRequest agent query),
                  NetCall.toolGateway fc.name toolArgs,
                  NetCall.completion (secondRequest agent query message fc.name
                    (callTool env.gateway fc.name toolArgs))])
            | Except.ok finalMsg =>
                ({ response := finalMsg.content, agent := some agent.name,
                   mcpToolsUsed := some [fc.name],
                   toolResults := some (callTool env.gateway fc.name toolArgs) },
                 [NetCall.completion (firstRequest agent query),
                  NetCall.toolGateway fc.name toolArgs,
                  NetCall.completion (secondRequest agent query message fc.name
                    (callTool env.gateway fc.name toolArgs))])
      | none =>
          ({ response := message.content, agent := some agent.name,
             mcpToolsUsed := some [] },
           [NetCall.completion (firstRequest agent query)])

/-! Concrete environments and values used to instantiate the theorems below. -/

/-- An environment whose completion endpoint always throws and whose gateway
transport never answers. -/
def envNoNetwork : Env :=
  { complete := fun _ => Except.error "network down",
    gateway := fun _ _ => AxiosOutcome.noResponse }

/-- A second-call reply with plain text content. -/
def doneMsg : ChatMessage := { role := "assistant", content := some "done" }

/-- A first-call reply requesting `pubmed_search` with the JSON arguments
string "[1]". -/
def asstPubmedMsg : ChatMessage :=
  { role := "assistant",
    function_call := some { name := "pubmed_search", arguments := "[1]" } }

/-- A first-call reply requesting `fda_drug_lookup` with the JSON arguments
string "[1]". -/
def asstFdaMsg : ChatMessage :=
  { role := "assistant",
    function_call := some { name := "fda_drug_lookup", arguments := "[1]" } }

/-- A first-call reply whose function-call arguments string is not JSON. -/
def asstBadArgsMsg : ChatMessage :=
  { role := "assistant",
    function_call := some { name := "fda_drug_lookup", arguments := "not json" } }

/-- An environment for a full tool round-trip: the first completion call (the
one offering function schemas, max_tokens 1000) requests a tool, the second
returns text, and the gateway succeeds. -/
def envToolRoundtrip : Env :=
  { complete := fun req =>
      if req.max_tokens == 1000 then Except.ok asstPubmedMsg else Except.ok doneMsg,
    gateway := fun _ _ => AxiosOutcome.success (JVal.obj [("status", JVal.str "success")]) }

/-- An environment whose first completion reply is plain text. -/
def envNoTool : Env :=
  { complete := fun _ => Except.ok { role := "assistant", content := some "direct answer" },
    gateway := fun _ _ => AxiosOutcome.noResponse }

/-- An environment whose first completion reply carries malformed function-call
arguments. -/
def envBadArgs : Env :=
  { complete := fun req =>
      if req.max_tokens == 1000 then Except.ok asstBadArgsMsg else Except.ok doneMsg,
    gateway := fun _ _ => AxiosOutcome.success JVal.null }

/-- An environment where the model requests a tool and the gateway transport
gets no response from the server. -/
def envGatewayDown : Env :=
  { complete := fun req =>
      if req.max_tokens == 1000 then Except.ok asstFdaMsg else Except.ok doneMsg,
    gateway := fun _ _ => AxiosOutcome.noResponse }

/-- An environment where the model requests a tool and the gateway transport
receives a 500 response carrying an `error` field. -/
def envHttp500 : Env :=
  { complete := fun req =>
      if req.max_tokens == 1000 then Except.ok asstFdaMsg else Except.ok doneMsg,
    gateway := fun _ _ => AxiosOutcome.httpError 500 (some (JVal.obj [("error", JVal.str "boom")])) }

/-- A doubly `result`-wrapped gateway response. -/
def nestedResultVal : JVal :=
  JVal.obj [("result", JVal.obj [("result", JVal.obj [("a", JVal.num 1)])])]

/-- A flat object with a truthy `status` field. -/
def statusOkVal : JVal := JVal.obj [("status", JVal.str "success")]

/-- Claim C4: for every agentId not present in the agent registry and every
query, `routeQuery` returns exactly the envelope with error "Agent not found"
and records zero network calls: neither the completion endpoint nor the tool
gateway is invoked. -/
theorem claim4_unknown_agent (env : Env) (agentId query : String)
    (h : agents.find? (fun a => a.id == agentId) = none) :
    routeQuery env agentId query = ({ error := some "Agent not found" }, []) := by
  simp [routeQuery, h]

/-- Witness for C4 at the concrete unknown agent id "ghost_agent". -/
theorem claim4_unknown_agent_witness :
    agents.find? (fun a => a.id == "ghost_agent") = none
    ∧ routeQuery envNoNetwork "ghost_agent" "hello" = ({ error := some "Agent not found" }, []) :=
  ⟨rfl, claim4_unknown_agent envNoNetwork "ghost_agent" "hello" rfl⟩

/-- Claim C5: for every environment behavior (completion throws, gateway
transport fails, any reply shape) and every agentId and query, `routeQuery` is
total and returns a result that is either an error envelope carrying a string
and no success fields, or a success envelope with no error; in the embedding
every JS throw site is an `Except` eliminated inside the function, so no
failure propagates past the dispatch boundary. -/
theorem claim5_dispatch_boundary (env : Env) (agentId query : String) :
    (∃ e, (routeQuery env agentId query).1.error = some e
        ∧ (routeQuery env agentId query).1.response = none
        ∧ (routeQuery env agentId query).1.mcpToolsUsed = none
        ∧ (routeQuery env agentId query).1.toolResults = none)
    ∨ ((routeQuery env agentId query).1.error = none
        ∧ ∃ ts, (routeQuery env agentId query).1.mcpToolsUsed = some ts) := by
  unfold routeQuery
  repeat' split
  all_goals first
    | exact Or.inl ⟨_, rfl, rfl, rfl, rfl⟩
    | exact Or.inr ⟨rfl, _, rfl⟩

/-- Claim C9: in every result of `routeQuery`, error and the success fields are
mutually exclusive: an error envelope carries no response, no tools-used list
and no tool result, and a result with a response carries no error. -/
theorem claim9_error_response_exclusive (env : Env) (agentId query : String) :
    ((routeQuery env agentId query).1.error.isSome = true →
      (routeQuery env agentId query).1.response = none
      ∧ (routeQuery env agentId query).1.mcpToolsUsed = none
      ∧ (routeQuery env agentId query).1.toolResults = none)
    ∧ ((routeQuery env agentId query).1.response.isSome = true →
      (routeQuery env agentId query).1.error = none) := by
  unfold routeQuery
  repeat' split
  all_goals first
    | exact ⟨fun _ => ⟨rfl, rfl, rfl⟩, fun h => Bool.noConfusion h⟩
    | exact ⟨fun h => Bool.noConfusion h, fun _ => rfl⟩

/-- Witness for C9: an error result (unknown agent) has all success fields
absent. -/
theorem claim9_error_response_exclusive_witness :
    (routeQuery envNoNetwork "ghost_agent" "q").1.error.isSome = true
    ∧ ((routeQuery envNoNetwork "ghost_agent" "q").1.response = none
       ∧ (routeQuery envNoNetwork "ghost_agent" "q").1.mcpToolsUsed = none
       ∧ (routeQuery envNoNetwork "ghost_agent" "q").1.toolResults = none) :=
  ⟨rfl, (claim9_error_response_exclusive envNoNetwork "ghost_agent" "q").1 rfl⟩

/-- Claim C1: for every known agent, when the first completion reply carries a
function-call for tool T with arguments string A that parses as JSON (with no
requirement that T belong to the agent's permitted tools list), `routeQuery`
invokes the tool gateway exactly once with exactly (T, parsed A) and then
makes a second completion call offering no function schemas, whose
conversation ends with a role-"function" message naming T whose content is the
JSON-serialized normalized tool result. -/
theorem claim1_tool_roundtrip (env : Env) (agentId query : String) (agent : Agent)
    (hagent : agents.find? (fun a => a.id == agentId) = some agent)
    (message : ChatMessage) (T A : String) (args : JVal)
    (hmsg : env.complete (firstRequest agent query) = Except.ok message)
    (hfc : message.function_call = some { name := T, arguments := A })
    (hargs : jsonParse A = some args) :
    (routeQuery env agentId query).2 =
      [NetCall.completion (firstRequest agent query),
       NetCall.toolGateway T args,
       NetCall.completion (secondRequest agent query message T (callTool env.gateway T args))]
    ∧ (secondRequest agent query message T (callTool env.gateway T args)).functions = none
    ∧ (secondRequest agent query message T (callTool env.gateway T args)).messages.getLast?
        = some (functionResultMessage T (callTool env.gateway T args)) := by
  refine ⟨?_, rfl, rfl⟩
  cases h2 : env.complete (secondRequest agent query message T (callTool env.gateway T args)) <;>
    simp [routeQuery, hagent, hmsg, hfc, hargs, h2]

/-- Witness for C1: the `fda_agent` dispatch where the model requests
`pubmed_search` (a tool outside that agent's permitted list) with valid JSON
arguments "[1]". -/
theorem claim1_tool_roundtrip_witness :
    agents.find? (fun a => a.id == "fda_agent") = some fdaAgent
    ∧ envToolRoundtrip.complete (firstRequest fdaAgent "What is aspirin?") = Except.ok asstPubmedMsg
    ∧ asstPubmedMsg.function_call = some { name := "pubmed_search", arguments := "[1]" }
    ∧ jsonParse "[1]" = some (JVal.arr [JVal.num 1])
    ∧ fdaAgent.tools.contains "pubmed_search" = false
    ∧ ((routeQuery envToolRoundtrip "fda_agent" "What is aspirin?").2 =
        [NetCall.completion (firstRequest fdaAgent "What is aspirin?"),
         NetCall.toolGateway "pubmed_search" (JVal.arr [JVal.num 1]),
         NetCall.completion (secondRequest fdaAgent "What is aspirin?" asstPubmedMsg
           "pubmed_search" (callTool envToolRoundtrip.gateway "pubmed_search" (JVal.arr [JVal.num 1])))]
       ∧ (secondRequest fdaAgent "What is aspirin?" asstPubmedMsg "pubmed_search"
           (callTool envToolRoundtrip.gateway "pubmed_search" (JVal.arr [JVal.num 1]))).functions = none
       ∧ (secondRequest fdaAgent "What is aspirin?" asstPubmedMsg "pubmed_search"
           (callTool envToolRoundtrip.gateway "pubmed_search" (JVal.arr [JVal.num 1]))).messages.getLast?
         = some (functionResultMessage "pubmed_search"
             (callTool envToolRoundtrip.gateway "pubmed_search" (JVal.arr [JVal.num 1])))) :=
  ⟨rfl, rfl, rfl, rfl, rfl,
   claim1_tool_roundtrip envToolRoundtrip "fda_agent" "What is aspirin?" fdaAgent rfl
     asstPubmedMsg "pubmed_search" "[1]" (JVal.arr [JVal.num 1]) rfl rfl rfl⟩

/-- Claim C6: for every known agent, when the first completion reply carries
no function-call request, `routeQuery` returns the reply's text with an empty
tools-used list, and the tool gateway is never invoked (the network trace is
the single first completion call). -/
theorem claim6_no_tool_direct_answer (env : Env) (agentId query : String) (agent : Agent)
    (hagent : agents.find? (fun a => a.id == agentId) = some agent)
    (message : ChatMessage)
    (hmsg : env.complete (firstRequest agent query) = Except.ok message)
    (hfc : message.function_call = none) :
    (routeQuery env agentId query).1 =
      { response := message.content, agent := some agent.name, mcpToolsUsed := some [] }
    ∧ (routeQuery env agentId query).2 = [NetCall.completion (firstRequest agent query)] := by
  constructor <;> simp [routeQuery, hagent, hmsg, hfc]

/-- Witness for C6: a dispatch whose first reply is plain text. -/
theorem claim6_no_tool_direct_answer_witness :
    agents.find? (fun a => a.id == "fda_agent") = some fdaAgent
    ∧ envNoTool.complete (firstRequest fdaAgent "hi") =
        Except.ok { role := "assistant", content := some "direct answer" }
    ∧ (({ role := "assistant", content := some "direct answer" } : ChatMessage).function_call = none)
    ∧ ((routeQuery envNoTool "fda_agent" "hi").1 =
        { response := some "direct answer", agent := some fdaAgent.name, mcpToolsUsed := some [] }
       ∧ (routeQuery envNoTool "fda_agent" "hi").2 =
         [NetCall.completion (firstRequest fdaAgent "hi")]) :=
  ⟨rfl, rfl, rfl,
   claim6_no_tool_direct_answer envNoTool "fda_agent" "hi" fdaAgent rfl
     { role := "assistant", content := some "direct answer" } rfl rfl⟩

/-- Claim C7: when the first completion reply carries a function-call whose
arguments string is not valid JSON, `routeQuery` returns an error describing
the parse failure (the modelled SyntaxError message) and the tool gateway is
never invoked for that dispatch. -/
theorem claim7_malformed_arguments (env : Env) (agentId query : String) (agent : Agent)
    (hagent : agents.find? (fun a => a.id == agentId) = some agent)
    (message : ChatMessage) (T A : String)
    (hmsg : env.complete (firstRequest agent query) = Except.ok message)
    (hfc : message.function_call = some { name := T, arguments := A })
    (hargs : jsonParse A = none) :
    (routeQuery env agentId query).1 =
      { error := some (jsonParseError A), agent := some agent.name }
    ∧ (routeQuery env agentId query).2 = [NetCall.completion (firstRequest agent query)] := by
  constructor <;> simp [routeQuery, hagent, hmsg, hfc, hargs]

/-- Witness for C7: arguments string "not json" fails to parse, producing an
error result with no gateway call. -/
theorem claim7_malformed_arguments_witness :
    agents.find? (fun a => a.id == "fda_agent") = some fdaAgent
    ∧ envBadArgs.complete (firstRequest fdaAgent "q") = Except.ok asstBadArgsMsg
    ∧ asstBadArgsMsg.function_call = some { name := "fda_drug_lookup", arguments := "not json" }
    ∧ jsonParse "not json" = none
    ∧ ((routeQuery envBadArgs "fda_agent" "q").1 =
        { error := some (jsonParseError "not json"), agent := some fdaAgent.name }
       ∧ (routeQuery envBadArgs "fda_agent" "q").2 =
         [NetCall.completion (firstRequest fdaAgent "q")]) :=
  ⟨rfl, rfl, rfl, rfl,
   claim7_malformed_arguments envBadArgs "fda_agent" "q" fdaAgent rfl
     asstBadArgsMsg "fda_drug_lookup" "not json" rfl rfl rfl⟩

/-- Claim C8: the response normalization satisfies the concrete cases of the
spec's section 8: a non-JSON string becomes the flat error object; a string
that parses as JSON yields the parsed value; `result` and `data` envelopes are
unwrapped one level; and an object with truthy `status`/`results` fields is
returned unchanged. -/
theorem claim8_normalize_concrete_cases :
    normalizeResponse (JVal.str "not json") =
      JVal.obj [("status", JVal.str "error"),
                ("error_message", JVal.str "Invalid response format from server"),
                ("raw_response", JVal.str "not json")]
    ∧ (∀ s v, jsonParse s = some v → normalizeResponse (JVal.str s) = v)
    ∧ normalizeResponse (JVal.obj [("result", JVal.obj [("a", JVal.num 1)])])
        = JVal.obj [("a", JVal.num 1)]
    ∧ normalizeResponse (JVal.obj [("data", JVal.obj [("a", JVal.num 1)])])
        = JVal.obj [("a", JVal.num 1)]
    ∧ normalizeResponse (JVal.obj [("status", JVal.str "success"), ("results", JVal.arr [JVal.num 1])])
        = JVal.obj [("status", JVal.str "success"), ("results", JVal.arr [JVal.num 1])] := by
  refine ⟨rfl, ?_, rfl, rfl, rfl⟩
  intro s v h
  simp [normalizeResponse, h]

/-- Witness for C8, discharging the parametric string-parse case at the
concrete JSON string "[1]". -/
theorem claim8_normalize_concrete_cases_witness :
    jsonParse "[1]" = some (JVal.arr [JVal.num 1])
    ∧ normalizeResponse (JVal.str "[1]") = JVal.arr [JVal.num 1] :=
  ⟨rfl, claim8_normalize_concrete_cases.2.1 "[1]" (JVal.arr [JVal.num 1]) rfl⟩

/-- Counterexample to claim C2 as stated: normalization is not idempotent on
every input of the five branch shapes. The object with a `result` field whose
payload is itself `result`-wrapped is unwrapped one more level by a second
application. -/
theorem claim2_counterexample :
    ¬ (normalizeResponse (normalizeResponse nestedResultVal) = normalizeResponse nestedResultVal) := by
  intro h
  have h2 : JVal.obj [("a", JVal.num 1)]
      = JVal.obj [("result", JVal.obj [("a", JVal.num 1)])] := h
  simp at h2

/-- Claim C2 (amended): normalization is idempotent on every input it returns
unchanged (in particular branch-4 objects with a truthy status/trials/results
field and fall-through values) and on strings that fail to parse (the
resulting error object is a fixed point); it is not idempotent in general,
since an unwrapped payload may itself match an unwrap branch. -/
theorem claim2_normalize_idempotent_amended (x : JVal)
    (h : normalizeResponse x = x ∨ ∃ s, x = JVal.str s ∧ jsonParse s = none) :
    normalizeResponse (normalizeResponse x) = normalizeResponse x := by
  rcases h with h | ⟨s, rfl, hs⟩
  · rw [h, h]
  · have h1 : normalizeResponse (JVal.str s) = invalidFormatObj s := by
      simp [normalizeResponse, hs]
    rw [h1]
    rfl

/-- Witness for the amended C2 at the branch-4 object with truthy status. -/
theorem claim2_normalize_idempotent_amended_witness :
    normalizeResponse statusOkVal = statusOkVal
    ∧ normalizeResponse (normalizeResponse statusOkVal) = normalizeResponse statusOkVal :=
  ⟨rfl, claim2_normalize_idempotent_amended statusOkVal (Or.inl rfl)⟩

/-- Counterexample to claim C3 as stated: with a gateway transport that fails
(the axios promise rejects with no server response) the dispatch result has no
error at all (so no error string contains the tool name) and the second
completion call IS made. `callTool` swallows the rejection inside its own
catch block, so it never reaches the dispatch loop. -/
theorem claim3_counterexample :
    envGatewayDown.gateway "fda_drug_lookup" (JVal.arr [JVal.num 1]) = AxiosOutcome.noResponse
    ∧ (routeQuery envGatewayDown "fda_agent" "q").1.error = none
    ∧ (routeQuery envGatewayDown "fda_agent" "q").2 =
        [NetCall.completion (firstRequest fdaAgent "q"),
         NetCall.toolGateway "fda_drug_lookup" (JVal.arr [JVal.num 1]),
         NetCall.completion (secondRequest fdaAgent "q" asstFdaMsg "fda_drug_lookup"
           (callToolFailure AxiosOutcome.noResponse))] :=
  ⟨rfl, rfl, rfl⟩

/-- Claim C3 (amended): a Tool Gateway transport failure never rejects into
the dispatch loop: `callTool` converts it into the flat error object, the
second completion call is still made with that object serialized as the tool
result, and the dispatch returns a success-shaped result (error absent,
toolsUsed = [T]); consequently no dispatch error arises from, or names, the
failed tool call. -/
theorem claim3_gateway_failure_amended (env : Env) (agentId query : String) (agent : Agent)
    (hagent : agents.find? (fun a => a.id == agentId) = some agent)
    (message : ChatMessage) (T A : String) (args : JVal)
    (hmsg : env.complete (firstRequest agent query) = Except.ok message)
    (hfc : message.function_call = some { name := T, arguments := A })
    (hargs : jsonParse A = some args)
    (outcome : AxiosOutcome)
    (hout : env.gateway T args = outcome)
    (hfail : outcome.isFailure = true)
    (finalMsg : ChatMessage)
    (hmsg2 : env.complete (secondRequest agent query message T (callToolFailure outcome))
              = Except.ok finalMsg) :
    (routeQuery env agentId query).1 =
      { response := finalMsg.content, agent := some agent.name,
        mcpToolsUsed := some [T], toolResults := some (callToolFailure outcome) }
    ∧ (routeQuery env agentId query).2 =
      [NetCall.completion (firstRequest agent query),
       NetCall.toolGateway T args,
       NetCall.completion (secondRequest agent query message T (callToolFailure outcome))] := by
  have hct : callTool env.gateway T args = callToolFailure outcome := by
    unfold callTool
    rw [hout]
    cases outcome with
    | success d => simp [AxiosOutcome.isFailure] at hfail
    | httpError s d => rfl
    | noResponse => rfl
    | setupError m => rfl
  constructor <;> simp [routeQuery, hagent, hmsg, hfc, hargs, hct, hmsg2]

/-- Witness for the amended C3 with the no-response transport failure. -/
theorem claim3_gateway_failure_amended_witness :
    agents.find? (fun a => a.id == "fda_agent") = some fdaAgent
    ∧ envGatewayDown.complete (firstRequest fdaAgent "q") = Except.ok asstFdaMsg
    ∧ asstFdaMsg.function_call = some { name := "fda_drug_lookup", arguments := "[1]" }
    ∧ jsonParse "[1]" = some (JVal.arr [JVal.num 1])
    ∧ envGatewayDown.gateway "fda_drug_lookup" (JVal.arr [JVal.num 1]) = AxiosOutcome.noResponse
    ∧ AxiosOutcome.noResponse.isFailure = true
    ∧ envGatewayDown.complete (secondRequest fdaAgent "q" asstFdaMsg "fda_drug_lookup"
        (callToolFailure AxiosOutcome.noResponse)) = Except.ok doneMsg
    ∧ ((routeQuery envGatewayDown "fda_agent" "q").1 =
        { response := some "done", agent := some fdaAgent.name,
          mcpToolsUsed := some ["fda_drug_lookup"],
          toolResults := some (callToolFailure AxiosOutcome.noResponse) }
       ∧ (routeQuery envGatewayDown "fda_agent" "q").2 =
        [NetCall.completion (firstRequest fdaAgent "q"),
         NetCall.toolGateway "fda_drug_lookup" (JVal.arr [JVal.num 1]),
         NetCall.completion (secondRequest fdaAgent "q" asstFdaMsg "fda_drug_lookup"
           (callToolFailure AxiosOutcome.noResponse))]) :=
  ⟨rfl, rfl, rfl, rfl, rfl, rfl, rfl,
   claim3_gateway_failure_amended envGatewayDown "fda_agent" "q" fdaAgent rfl
     asstFdaMsg "fda_drug_lookup" "[1]" (JVal.arr [JVal.num 1]) rfl rfl rfl
     AxiosOutcome.noResponse rfl rfl doneMsg rfl⟩

/-- Claim C10: the tool-gateway wrapper `callTool` never throws: every
transport failure is converted into the flat object with status "error" and a
message derived from the failure; that object flows into the second completion
call as an ordinary JSON-serialized tool result and the dispatch still returns
a success-shaped result with toolsUsed = [T]. -/
theorem claim10_calltool_never_throws (env : Env) (agentId query : String) (agent : Agent)
    (hagent : agents.find? (fun a => a.id == agentId) = some agent)
    (message : ChatMessage) (T A : String) (args : JVal)
    (hmsg : env.complete (firstRequest agent query) = Except.ok message)
    (hfc : message.function_call = some { name := T, arguments := A })
    (hargs : jsonParse A = some args)
    (outcome : AxiosOutcome)
    (hout : env.gateway T args = outcome)
    (hfail : outcome.isFailure = true)
    (finalMsg : ChatMessage)
    (hmsg2 : env.complete (secondRequest agent query message T (callToolFailure outcome))
              = Except.ok finalMsg) :
    callTool env.gateway T args = callToolFailure outcome
    ∧ getField (callToolFailure outcome) "status" = some (JVal.str "error")
    ∧ getField (callToolFailure outcome) "error_message" = some (axiosErrorMessage outcome)
    ∧ (secondRequest agent query message T (callToolFailure outcome)).messages.getLast?
        = some (functionResultMessage T (callToolFailure outcome))
    ∧ (routeQuery env agentId query).1.mcpToolsUsed = some [T]
    ∧ (routeQuery env agentId query).1.error = none
    ∧ (routeQuery env agentId query).1.toolResults = some (callToolFailure outcome) := by
  have hct : callTool env.gateway T args = callToolFailure outcome := by
    unfold callTool
    rw [hout]
    cases outcome with
    | success d => simp [AxiosOutcome.isFailure] at hfail
    | httpError s d => rfl
    | noResponse => rfl
    | setupError m => rfl
  refine ⟨hct, rfl, rfl, rfl, ?_, ?_, ?_⟩ <;>
    simp [routeQuery, hagent, hmsg, hfc, hargs, hct, hmsg2]

/-- Witness for C10 with a 500 response whose body carries an `error` field:
the derived message is that field's value. -/
theorem claim10_calltool_never_throws_witness :
    agents.find? (fun a => a.id == "fda_agent") = some fdaAgent
    ∧ envHttp500.complete (firstRequest fdaAgent "q") = Except.ok asstFdaMsg
    ∧ asstFdaMsg.function_call = some { name := "fda_drug_lookup", arguments := "[1]" }
    ∧ jsonParse "[1]" = some (JVal.arr [JVal.num 1])
    ∧ envHttp500.gateway "fda_drug_lookup" (JVal.arr [JVal.num 1])
        = AxiosOutcome.httpError 500 (some (JVal.obj [("error", JVal.str "boom")]))
    ∧ (AxiosOutcome.httpError 500 (some (JVal.obj [("error", JVal.str "boom")]))).isFailure = true
    ∧ envHttp500.complete (secondRequest fdaAgent "q" asstFdaMsg "fda_drug_lookup"
        (callToolFailure (AxiosOutcome.httpError 500 (some (JVal.obj [("error", JVal.str "boom")])))))
        = Except.ok doneMsg
    ∧ (callTool envHttp500.gateway "fda_drug_lookup" (JVal.arr [JVal.num 1])
        = callToolFailure (AxiosOutcome.httpError 500 (some (JVal.obj [("error", JVal.str "boom")])))
       ∧ getField (callToolFailure (AxiosOutcome.httpError 500 (some (JVal.obj [("error", JVal.str "boom")]))))
           "status" = some (JVal.str "error")
       ∧ getField (callToolFailure (AxiosOutcome.httpError 500 (some (JVal.obj [("error", JVal.str "boom")]))))
           "error_message"
         = some (axiosErrorMessage (AxiosOutcome.httpError 500 (some (JVal.obj [("error", JVal.str "boom")]))))
       ∧ (secondRequest fdaAgent "q" asstFdaMsg "fda_drug_lookup"
           (callToolFailure (AxiosOutcome.httpError 500 (some (JVal.obj [("error", JVal.str "boom")]))))).messages.getLast?
         = some (functionResultMessage "fda_drug_lookup"
             (callToolFailure (AxiosOutcome.httpError 500 (some (JVal.obj [("error", JVal.str "boom")])))))
       ∧ (routeQuery envHttp500 "fda_agent" "q").1.mcpToolsUsed = some ["fda_drug_lookup"]
       ∧ (routeQuery envHttp500 "fda_agent" "q").1.error = none
       ∧ (routeQuery envHttp500 "fda_agent" "q").1.toolResults
         = some (callToolFailure (AxiosOutcome.httpError 500 (some (JVal.obj [("error", JVal.str "boom")]))))) :=
  ⟨rfl, rfl, rfl, rfl, rfl, rfl, rfl,
   claim10_calltool_never_throws envHttp500 "fda_agent" "q" fdaAgent rfl
     asstFdaMsg "fda_drug_lookup" "[1]" (JVal.arr [JVal.num 1]) rfl rfl rfl
     (AxiosOutcome.httpError 500 (some (JVal.obj [("error", JVal.str "boom")]))) rfl rfl doneMsg rfl⟩
